import Mathlib

/-!
Verification of the question/answer route handlers of a multi-tenant Q&A
backend (`src/api/questions/routes.py`).  The handlers are embedded as pure
Lean functions over an explicit store state; the persistent store (Beanie /
MongoDB), the tenant guard and the AI generator are external collaborators
and are modelled by their interface contracts, with the outcome of the AI
call passed in as a parameter.
-/

/-- A persisted Question record.  Fields follow `db.models.question.Question`
as used by the routes: `qid` is the string form of the ObjectId assigned at
insert, `company_id` is the owning tenant. -/
structure Question where
  qid : String
  title : String
  description : String
  tags : List String
  company_id : String
  user_id : String
  upvotes : Nat
deriving Repr, DecidableEq

/-- A persisted Answer record (`db.models.answer.Answer`): `user_id` is
`none` for AI-generated answers, `is_ai` is the origin flag. -/
structure Answer where
  aid : Nat
  question_id : String
  answer : String
  user_id : Option String
  upvotes : Nat
  is_ai : Bool
deriving Repr, DecidableEq

/-- A persisted Comment record (`db.models.comment.Comment`), keyed by the
id of the Answer it belongs to. -/
structure Comment where
  cid : Nat
  answer_id : Nat
  comment : String
  user_id : String
deriving Repr, DecidableEq

/-- Tenant configuration (`Company`): the routes read only the
`ai_answer_enabled` feature flag. -/
structure Company where
  ai_answer_enabled : Bool
deriving Repr, DecidableEq

/-- The verified caller produced by the `verify_in_company` tenant guard
(external collaborator): the routes read `current_user["sub"]` (the user id)
and `current_user.company_id` (the resolved tenant id). -/
structure Caller where
  sub : String
  company_id : String
deriving Repr, DecidableEq

/-- The content store: the three collections the routes touch.  `insert`
is modelled as appending to the collection's list, so insertion order is
the list order. -/
structure Store where
  questions : List Question
  answers : List Answer
  comments : List Comment
deriving Repr, DecidableEq

/-- Failure modes surfaced by the handlers: `http` is a raised
`HTTPException` (status, detail); `keyError` is an unhandled Python
`KeyError` on a missing payload key; `validationError` is a model-level
ValidationError; `genFailure` is a failure of the external AI call. -/
inductive Err where
  | http (status : Nat) (detail : String)
  | keyError (key : String)
  | validationError (msg : String)
  | genFailure
deriving Repr, DecidableEq

/-- The request body of `create_question` (`question_data : dict`): a key
access `question_data["k"]` on a missing key raises KeyError, while
`question_data.get("tags", [])` defaults. -/
structure QuestionPayload where
  title : Option String
  description : Option String
  tags : Option (List String)
deriving Repr, DecidableEq

/-- `Question.get(question_id)`: look a question up by id. -/
def findQuestion (s : Store) (question_id : String) : Option Question :=
  s.questions.find? (fun q => q.qid == question_id)

/-- `Answer.get(answer_id)`: look an answer up by id. -/
def findAnswer (s : Store) (answer_id : Nat) : Option Answer :=
  s.answers.find? (fun a => a.aid == answer_id)

/-- Modelled from the spec: the `Question` document class
(`db/models/question.py`) is not under `src/`; per the spec, question
construction fails with ValidationError if title or description is empty. -/
def Question.make (qid title description : String) (tags : List String)
    (company_id user_id : String) (upvotes : Nat) : Except Err Question :=
  if title = "" then .error (.validationError "title must be non-empty")
  else if description = "" then .error (.validationError "description must be non-empty")
  else .ok ⟨qid, title, description, tags, company_id, user_id, upvotes⟩

/-- `POST /questions` (`create_question`): reads `question_data["title"]`,
`question_data["description"]` (KeyError if absent, in that order — Python
evaluates the constructor arguments left to right before the call),
defaults `tags` to `[]`, builds the Question with the caller's tenant and
user id and `upvotes=0`, inserts it and returns the new id.  `newId` stands
for the ObjectId the store assigns at insert. -/
def create_question (question_data : QuestionPayload) (current_user : Caller)
    (newId : String) (s : Store) : Store × Except Err String :=
  match question_data.title with
  | none => (s, .error (.keyError "title"))
  | some title =>
    match question_data.description with
    | none => (s, .error (.keyError "description"))
    | some description =>
      match Question.make newId title description (question_data.tags.getD [])
          current_user.company_id current_user.sub 0 with
      | .error e => (s, .error e)
      | .ok q => ({s with questions := s.questions ++ [q]}, .ok newId)

/-- The filter document built by `get_questions`: `tags $in` only when a
non-empty tags list was supplied (`if tags:` is false for `None` and `[]`),
always `company_id == current_user.company_id`. -/
def matchesQuery (tags : Option (List String)) (company_id : String)
    (q : Question) : Bool :=
  (match tags with
   | none => true
   | some ts => ts.isEmpty || q.tags.any (fun t => ts.contains t)) &&
  q.company_id == company_id

/-- The sort argument `get_questions` passes to the store:
`-1 if sort_by == "upvotes" else -1`, i.e. the bare integer direction `-1`
in both branches — no field name is ever supplied. -/
def sortArg (sort_by : String) : Int :=
  if sort_by = "upvotes" then -1 else -1

/-- The store's ordering of a query result for the sort argument the route
passes.  The argument carries a direction but no sort key, so the stable
tiebreak of the store contract — insertion order — is the resulting order;
modelled as the identity permutation of the (insertion-ordered) filtered
list. -/
def applySort : Int → List Question → List Question :=
  fun _ l => l

/-- The full (pre-pagination) result sequence of the questions query:
filter by tags/tenant, then the store's ordering for the route's sort
argument. -/
def questionQueryResult (tags : Option (List String)) (sort_by : String)
    (current_user : Caller) (s : Store) : List Question :=
  applySort (sortArg sort_by) (s.questions.filter (matchesQuery tags current_user.company_id))

/-- `GET /questions` (`get_questions`): no validation of `page` /
`page_size`; the offset `(page - 1) * page_size` (possibly negative) and
the limit are handed to the store.  A negative offset or limit never
reaches a ValidationError in the handler; the store-side `skip`/`limit`
are modelled on the list via `Int.toNat` clamping. -/
def get_questions (page : Int) (page_size : Int) (tags : Option (List String))
    (sort_by : String) (current_user : Caller) (s : Store) :
    Except Err (List Question) :=
  .ok (((questionQueryResult tags sort_by current_user s).drop
          ((page - 1) * page_size).toNat).take page_size.toNat)

/-- The aggregated read view returned by `get_question_by_id`: the question
plus each of its answers paired with that answer's comments. -/
structure QuestionDetail where
  question : Question
  answers : List (Answer × List Comment)
deriving Repr, DecidableEq

/-- `GET /questions/{question_id}` (`get_question_by_id`): 404 `"Question
not found"` when the id does not resolve; 403 `"Access denied"` when the
question's tenant differs from the caller's; otherwise the two-level
fan-out view. -/
def get_question_by_id (question_id : String) (current_user : Caller)
    (s : Store) : Except Err QuestionDetail :=
  match findQuestion s question_id with
  | none => .error (.http 404 "Question not found")
  | some question =>
    if question.company_id ≠ current_user.company_id then
      .error (.http 403 "Access denied")
    else
      .ok ⟨question,
        (s.answers.filter (fun a => a.question_id == question_id)).map
          (fun a => (a, s.comments.filter (fun c => c.answer_id == a.aid)))⟩

/-- `POST /questions/{question_id}/answers` (`answer_question`): 404 when
the question id does not resolve; otherwise inserts a human answer
(`user_id = current_user["sub"]`, `is_ai = False`, `upvotes = 0`) with NO
tenant-ownership check on the fetched question.  `answer_body` models
`answer_data["answer"]` (KeyError when absent). -/
def answer_question (question_id : String) (answer_body : Option String)
    (current_user : Caller) (newId : Nat) (s : Store) : Store × Except Err String :=
  match findQuestion s question_id with
  | none => (s, .error (.http 404 "Question not found"))
  | some _ =>
    match answer_body with
    | none => (s, .error (.keyError "answer"))
    | some body =>
      ({s with answers :=
          s.answers ++ [⟨newId, question_id, body, some current_user.sub, 0, false⟩]},
       .ok "Answer added successfully")

/-- `POST /answers/{answer_id}/comments` (`comment_on_answer`): 404 when
the answer id does not resolve; otherwise inserts the comment. -/
def comment_on_answer (answer_id : Nat) (comment_body : Option String)
    (current_user : Caller) (newId : Nat) (s : Store) : Store × Except Err String :=
  match findAnswer s answer_id with
  | none => (s, .error (.http 404 "Answer not found"))
  | some _ =>
    match comment_body with
    | none => (s, .error (.keyError "comment"))
    | some body =>
      ({s with comments := s.comments ++ [⟨newId, answer_id, body, current_user.sub⟩]},
       .ok "Comment added successfully")

/-- `POST /questions/{question_id}/generate-answer`
(`generate_ai_answer_route`): 404 when the question id does not resolve;
then the caller's tenant configuration is read (the Tenant Config Lookup
collaborator, passed in as `company`) and a disabled `ai_answer_enabled`
flag raises 403 `"AI-generated answers are disabled"`; then the external
generator runs — its outcome is the parameter `gen`, and a failure
propagates before any insert; on success an AI answer (`user_id = None`,
`is_ai = True`, `upvotes = 0`) is inserted and the text returned.  Again no
tenant-ownership check is made on the fetched question. -/
def generate_ai_answer_route (question_id : String) (current_user : Caller)
    (company : Company) (gen : Except Err String) (newId : Nat) (s : Store) :
    Store × Except Err String :=
  match findQuestion s question_id with
  | none => (s, .error (.http 404 "Question not found"))
  | some question =>
    if !company.ai_answer_enabled then
      (s, .error (.http 403 "AI-generated answers are disabled"))
    else
      match gen with
      | .error e => (s, .error e)
      | .ok ai_answer =>
        ({s with answers :=
            s.answers ++ [⟨newId, question_id, ai_answer, none, 0, true⟩]},
         .ok ai_answer)

/-! ## Claim theorems -/

/-- C2: the claim says every write path verifies tenant ownership of the
question before inserting, and that `createAnswer` / `generateAiAnswer` on
a cross-tenant question fail with AccessDenied and insert nothing.  The
code only checks that the question id resolves: a caller from tenant
`tenantB` posting to a `tenantA` question succeeds and an Answer row is
inserted, on both write paths. -/
theorem C2_cross_tenant_write_not_blocked :
    answer_question "q1" (some "hi") ⟨"bob", "tenantB"⟩ 7
        ⟨[⟨"q1", "t", "d", [], "tenantA", "alice", 0⟩], [], []⟩
      = (⟨[⟨"q1", "t", "d", [], "tenantA", "alice", 0⟩],
          [⟨7, "q1", "hi", some "bob", 0, false⟩], []⟩,
         .ok "Answer added successfully") ∧
    generate_ai_answer_route "q1" ⟨"bob", "tenantB"⟩ ⟨true⟩ (.ok "ai text") 8
        ⟨[⟨"q1", "t", "d", [], "tenantA", "alice", 0⟩], [], []⟩
      = (⟨[⟨"q1", "t", "d", [], "tenantA", "alice", 0⟩],
          [⟨8, "q1", "ai text", none, 0, true⟩], []⟩,
         .ok "ai text") :=
  ⟨rfl, rfl⟩

/-- C3: `get_questions` passes the same sort argument to the store for
every requested `sort_by` value (`-1 if sort_by == "upvotes" else -1`), so
any two sort keys yield the identical result sequence. -/
theorem C3_sort_key_irrelevant (page page_size : Int) (tags : Option (List String))
    (sb1 sb2 : String) (current_user : Caller) (s : Store) :
    get_questions page page_size tags sb1 current_user s
      = get_questions page page_size tags sb2 current_user s := by
  simp only [get_questions, questionQueryResult, applySort]

/-- C5: the claim says the response body for a cross-tenant question id is
indistinguishable from that for a nonexistent id.  The code answers 403
`"Access denied"` for the former and 404 `"Question not found"` for the
latter — distinguishable responses. -/
theorem C5_responses_distinguishable :
    get_question_by_id "q1" ⟨"bob", "tenantB"⟩
        ⟨[⟨"q1", "t", "d", [], "tenantA", "alice", 0⟩], [], []⟩
      = .error (.http 403 "Access denied") ∧
    get_question_by_id "q404" ⟨"bob", "tenantB"⟩
        ⟨[⟨"q1", "t", "d", [], "tenantA", "alice", 0⟩], [], []⟩
      = .error (.http 404 "Question not found") ∧
    Err.http 403 "Access denied" ≠ Err.http 404 "Question not found" :=
  ⟨rfl, rfl, by decide⟩

/-- C9: the claim says `page < 1` or `page_size <= 0` fails with
ValidationError.  The handler performs no validation at all: it never
returns any error, and at the failing input `page = 0` it hands the
negative offset to the store and returns a result list. -/
theorem C9_no_pagination_validation :
    (∀ (page page_size : Int) (tags : Option (List String)) (sort_by : String)
        (current_user : Caller) (s : Store) (e : Err),
       get_questions page page_size tags sort_by current_user s ≠ .error e) ∧
    get_questions 0 10 none "upvotes" ⟨"u1", "tA"⟩
        ⟨[⟨"q1", "t", "d", [], "tA", "u1", 0⟩], [], []⟩
      = .ok [⟨"q1", "t", "d", [], "tA", "u1", 0⟩] :=
  ⟨fun _ _ _ _ _ _ _ h => Except.noConfusion h, rfl⟩

/-- C4: when the question id resolves and the caller's tenant has
`ai_answer_enabled = false`, `generate_ai_answer_route` fails with 403
`"AI-generated answers are disabled"` and leaves the store unchanged; and
whenever the external generation call fails, no Answer record is
persisted (the store component is unchanged). -/
theorem C4_ai_flag_gate_and_no_partial_answer (question_id : String)
    (current_user : Caller) (company : Company) (gen : Except Err String)
    (newId : Nat) (s : Store) (q : Question)
    (hq : findQuestion s question_id = some q) :
    (company.ai_answer_enabled = false →
       generate_ai_answer_route question_id current_user company gen newId s
         = (s, .error (.http 403 "AI-generated answers are disabled"))) ∧
    (∀ e, gen = .error e →
       (generate_ai_answer_route question_id current_user company gen newId s).1 = s) := by
  constructor
  · intro hflag
    simp [generate_ai_answer_route, hq, hflag]
  · intro e he
    cases hb : company.ai_answer_enabled <;>
      simp [generate_ai_answer_route, hq, hb, he]

/-- Witness for C4 at a concrete store: the flag-off call is rejected with
the store unchanged, and a failed generation call persists nothing. -/
theorem C4_ai_flag_gate_witness :
    generate_ai_answer_route "q1" ⟨"alice", "tA"⟩ ⟨false⟩ (.error .genFailure) 3
        ⟨[⟨"q1", "t", "d", [], "tA", "alice", 0⟩], [], []⟩
      = (⟨[⟨"q1", "t", "d", [], "tA", "alice", 0⟩], [], []⟩,
         .error (.http 403 "AI-generated answers are disabled")) ∧
    (generate_ai_answer_route "q1" ⟨"alice", "tA"⟩ ⟨true⟩ (.error .genFailure) 4
        ⟨[⟨"q1", "t", "d", [], "tA", "alice", 0⟩], [], []⟩).1
      = ⟨[⟨"q1", "t", "d", [], "tA", "alice", 0⟩], [], []⟩ :=
  ⟨(C4_ai_flag_gate_and_no_partial_answer "q1" ⟨"alice", "tA"⟩ ⟨false⟩
      (.error .genFailure) 3 ⟨[⟨"q1", "t", "d", [], "tA", "alice", 0⟩], [], []⟩
      ⟨"q1", "t", "d", [], "tA", "alice", 0⟩ rfl).1 rfl,
   (C4_ai_flag_gate_and_no_partial_answer "q1" ⟨"alice", "tA"⟩ ⟨true⟩
      (.error .genFailure) 4 ⟨[⟨"q1", "t", "d", [], "tA", "alice", 0⟩], [], []⟩
      ⟨"q1", "t", "d", [], "tA", "alice", 0⟩ rfl).2 .genFailure rfl⟩

/-- C7: when the payload supplies a `title` and a `description` and either
is empty, `create_question` fails with a ValidationError and inserts no
Question record (the store component of the result is unchanged). -/
theorem C7_empty_title_or_description_rejected (question_data : QuestionPayload)
    (current_user : Caller) (newId : String) (s : Store) (t d : String)
    (ht : question_data.title = some t) (hd : question_data.description = some d)
    (he : t = "" ∨ d = "") :
    ∃ msg, create_question question_data current_user newId s
        = (s, .error (.validationError msg)) := by
  simp only [create_question, ht, hd, Question.make]
  by_cases h1 : t = ""
  · exact ⟨"title must be non-empty", by simp [h1]⟩
  · have h2 : d = "" := he.resolve_left h1
    exact ⟨"description must be non-empty", by simp [h1, h2]⟩

/-- Witness for C7: a payload with an empty title is rejected with a
ValidationError and the store stays empty. -/
theorem C7_empty_title_witness :
    ∃ msg, create_question ⟨some "", some "d", none⟩ ⟨"u1", "tA"⟩ "q9" ⟨[], [], []⟩
        = (⟨[], [], []⟩, .error (.validationError msg)) :=
  C7_empty_title_or_description_rejected ⟨some "", some "d", none⟩ ⟨"u1", "tA"⟩
    "q9" ⟨[], [], []⟩ "" "d" rfl rfl (Or.inl rfl)

/-- C10: when the payload lacks the `title` or the `description` key,
`create_question` fails with an unhandled KeyError — a failure distinct
from every ValidationError — and no Question record is persisted. -/
theorem C10_missing_key_raises_keyerror (question_data : QuestionPayload)
    (current_user : Caller) (newId : String) (s : Store)
    (h : question_data.title = none ∨ question_data.description = none) :
    ∃ k, create_question question_data current_user newId s
          = (s, .error (.keyError k)) ∧
        ∀ msg, Err.keyError k ≠ Err.validationError msg := by
  cases hT : question_data.title with
  | none => exact ⟨"title", by simp [create_question, hT], fun msg => Err.noConfusion⟩
  | some tt =>
    have hD : question_data.description = none := by
      rcases h with h | h
      · rw [hT] at h; exact absurd h (by simp)
      · exact h
    exact ⟨"description", by simp [create_question, hT, hD], fun msg => Err.noConfusion⟩

/-- Witness for C10: a payload missing the `title` key produces a KeyError
and leaves the store empty. -/
theorem C10_missing_key_witness :
    ∃ k, create_question ⟨none, some "d", none⟩ ⟨"u1", "tA"⟩ "q9" ⟨[], [], []⟩
          = (⟨[], [], []⟩, .error (.keyError k)) ∧
        ∀ msg, Err.keyError k ≠ Err.validationError msg :=
  C10_missing_key_raises_keyerror ⟨none, some "d", none⟩ ⟨"u1", "tA"⟩ "q9"
    ⟨[], [], []⟩ (Or.inl rfl)

/-- C1: a question created under tenant `u1.company_id` is never contained
in a `get_questions` result for a caller of a different tenant, and
`get_question_by_id` for that caller never returns the question's content
(whatever it returns — if it returns at all — is not that question). -/
theorem C1_tenant_isolation_of_reads (question_data : QuestionPayload)
    (u1 u2 : Caller) (newId qid : String) (s s2 : Store) (q : Question)
    (hne : u1.company_id ≠ u2.company_id)
    (hc : create_question question_data u1 newId s = (s2, .ok qid))
    (hq : q ∈ s2.questions) (hnotold : q ∉ s.questions) :
    (∀ (page page_size : Int) (tags : Option (List String)) (sort_by : String)
        (l : List Question),
       get_questions page page_size tags sort_by u2 s2 = .ok l → q ∉ l) ∧
    (∀ d, get_question_by_id q.qid u2 s2 = .ok d → d.question ≠ q) := by
  have hs2 : ∃ t d tg, s2.questions
      = s.questions ++ [⟨newId, t, d, tg, u1.company_id, u1.sub, 0⟩] := by
    cases hT : question_data.title with
    | none => simp [create_question, hT] at hc
    | some t =>
      cases hD : question_data.description with
      | none => simp [create_question, hT, hD] at hc
      | some d =>
        by_cases h1 : t = ""
        · simp [create_question, hT, hD, Question.make, h1] at hc
        · by_cases h2 : d = ""
          · simp [create_question, hT, hD, Question.make, h1, h2] at hc
          · simp [create_question, hT, hD, Question.make, h1, h2] at hc
            exact ⟨t, d, question_data.tags.getD [], by rw [← hc.1]⟩
  obtain ⟨t, d, tg, hs2q⟩ := hs2
  have hqe : q = ⟨newId, t, d, tg, u1.company_id, u1.sub, 0⟩ := by
    rw [hs2q] at hq
    rcases List.mem_append.1 hq with h | h
    · exact absurd h hnotold
    · simpa using h
  have hqc : q.company_id = u1.company_id := by rw [hqe]
  constructor
  · intro page page_size tags sort_by l hok hql
    simp only [get_questions, Except.ok.injEq] at hok
    rw [← hok] at hql
    have h1 : q ∈ questionQueryResult tags sort_by u2 s2 :=
      List.mem_of_mem_drop (List.mem_of_mem_take hql)
    have h2 : q ∈ s2.questions.filter (matchesQuery tags u2.company_id) := h1
    have h3 := (List.mem_filter.1 h2).2
    have h4 : q.company_id = u2.company_id := by
      simp only [matchesQuery, Bool.and_eq_true, beq_iff_eq] at h3
      exact h3.2
    rw [hqc] at h4
    exact hne h4
  · intro dd hok hdq
    cases hfq : findQuestion s2 q.qid with
    | none =>
      simp only [get_question_by_id, hfq] at hok
      exact Except.noConfusion hok
    | some q2 =>
      simp only [get_question_by_id, hfq] at hok
      split at hok
      · exact Except.noConfusion hok
      · rename_i hcc
        have hdq2 : dd.question = q2 := by rw [← Except.ok.inj hok]
        have hcc2 : q2.company_id = u2.company_id := not_ne_iff.1 hcc
        rw [hdq] at hdq2
        rw [← hdq2, hqc] at hcc2
        exact hne hcc2

/-- Witness for C1: with a question freshly created under tenant `tA`, a
`tB` caller's page-1 listing is empty, so the created question is not in
it. -/
theorem C1_tenant_isolation_witness :
    (⟨"q1", "t", "d", [], "tA", "alice", 0⟩ : Question) ∉ ([] : List Question) :=
  (C1_tenant_isolation_of_reads ⟨some "t", some "d", none⟩ ⟨"alice", "tA"⟩
      ⟨"bob", "tB"⟩ "q1" "q1" ⟨[], [], []⟩
      ⟨[⟨"q1", "t", "d", [], "tA", "alice", 0⟩], [], []⟩
      ⟨"q1", "t", "d", [], "tA", "alice", 0⟩
      (by decide) rfl (by simp) (by simp)).1
    1 10 none "upvotes" [] rfl

/-- The two answer-creating calls of the route file, with all their inputs,
for reasoning about arbitrary call sequences. -/
inductive AnswerOp where
  | human (question_id : String) (answer_body : Option String)
      (current_user : Caller) (newId : Nat)
  | ai (question_id : String) (current_user : Caller) (company : Company)
      (gen : Except Err String) (newId : Nat)

/-- Execute one answer-creating call against the store, keeping the store
effect. -/
def applyAnswerOp (s : Store) : AnswerOp → Store
  | .human question_id body u newId => (answer_question question_id body u newId s).1
  | .ai question_id u company gen newId =>
      (generate_ai_answer_route question_id u company gen newId s).1

/-- Execute a sequence of answer-creating calls. -/
def runAnswerOps (s : Store) (ops : List AnswerOp) : Store :=
  ops.foldl applyAnswerOp s

/-- The author/origin invariant on one Answer record: author id present iff
the origin flag is human. -/
def answerOriginOk (a : Answer) : Prop :=
  a.user_id.isSome = true ↔ a.is_ai = false

lemma applyAnswerOp_preserves_origin (s : Store) (op : AnswerOp)
    (h : ∀ a ∈ s.answers, answerOriginOk a) :
    ∀ a ∈ (applyAnswerOp s op).answers, answerOriginOk a := by
  cases op with
  | human qid body u newId =>
    intro a ha
    cases hf : findQuestion s qid with
    | none =>
      simp [applyAnswerOp, answer_question, hf] at ha
      exact h a ha
    | some q =>
      cases body with
      | none =>
        simp [applyAnswerOp, answer_question, hf] at ha
        exact h a ha
      | some b =>
        simp [applyAnswerOp, answer_question, hf] at ha
        rcases ha with h1 | h1
        · exact h a h1
        · subst h1; simp [answerOriginOk]
  | ai qid u company gen newId =>
    intro a ha
    cases hf : findQuestion s qid with
    | none =>
      simp [applyAnswerOp, generate_ai_answer_route, hf] at ha
      exact h a ha
    | some q =>
      cases hb : company.ai_answer_enabled with
      | false =>
        simp [applyAnswerOp, generate_ai_answer_route, hf, hb] at ha
        exact h a ha
      | true =>
        cases gen with
        | error e =>
          simp [applyAnswerOp, generate_ai_answer_route, hf, hb] at ha
          exact h a ha
        | ok txt =>
          simp [applyAnswerOp, generate_ai_answer_route, hf, hb] at ha
          rcases ha with h1 | h1
          · exact h a h1
          · subst h1; simp [answerOriginOk]

/-- C6: after any sequence of `answer_question` and
`generate_ai_answer_route` calls from a store whose answers satisfy the
author/origin invariant, every persisted Answer still satisfies it: its
`user_id` is present iff `is_ai` is false. -/
theorem C6_answer_author_origin_invariant (ops : List AnswerOp) (s : Store)
    (h : ∀ a ∈ s.answers, answerOriginOk a) :
    ∀ a ∈ (runAnswerOps s ops).answers, answerOriginOk a := by
  induction ops generalizing s with
  | nil => exact h
  | cons op rest ih =>
    exact ih (applyAnswerOp s op) (applyAnswerOp_preserves_origin s op h)

/-- Witness for C6: a human answer followed by an AI answer on a one-question
store; the inserted human answer satisfies the invariant. -/
theorem C6_answer_origin_witness :
    answerOriginOk ⟨5, "q1", "hello", some "alice", 0, false⟩ :=
  C6_answer_author_origin_invariant
    [.human "q1" (some "hello") ⟨"alice", "tA"⟩ 5,
     .ai "q1" ⟨"alice", "tA"⟩ ⟨true⟩ (.ok "ai text") 6]
    ⟨[⟨"q1", "t", "d", [], "tA", "alice", 0⟩], [], []⟩
    (fun a ha => absurd ha (by simp))
    ⟨5, "q1", "hello", some "alice", 0, false⟩ (by decide)

/-- Concatenating the `take`/`drop` pages of size `sz` for page indexes
`0..k-1` yields the first `k * sz` elements. -/
lemma take_drop_chunks_flatten (l : List Question) (sz : Nat) (k : Nat) :
    ((List.range k).map (fun i => (l.drop (i * sz)).take sz)).flatten
      = l.take (k * sz) := by
  induction k with
  | zero => simp
  | succ k ih =>
    rw [List.range_succ, List.map_append, List.flatten_append, ih]
    simp only [List.map_cons, List.map_nil, List.flatten_cons, List.flatten_nil,
      List.append_nil]
    rw [Nat.succ_mul, List.take_add]

/-- C8: pagination is offset `(page-1)*page_size` into the fixed query
result: every page holds at most `page_size` items, and as soon as
`k * page_size` covers the full filtered sequence, pages `1..k`
concatenated are exactly that sequence — the tenant/tags-matching
questions of the store, in order, each exactly once (no duplicates, no
gaps). -/
theorem C8_pagination_covers_exactly (s : Store) (current_user : Caller)
    (tags : Option (List String)) (sort_by : String) (sz k : Nat)
    (hsz : 0 < sz)
    (hcov : (questionQueryResult tags sort_by current_user s).length ≤ k * sz) :
    (∀ (p : Nat) (l : List Question), 1 ≤ p →
       get_questions (p : Int) (sz : Int) tags sort_by current_user s = .ok l →
       l.length ≤ sz) ∧
    ((List.range k).map (fun i =>
        ((get_questions ((i + 1 : Nat) : Int) (sz : Int) tags sort_by
            current_user s).toOption).getD [])).flatten
      = questionQueryResult tags sort_by current_user s ∧
    questionQueryResult tags sort_by current_user s
      = s.questions.filter (matchesQuery tags current_user.company_id) := by
  refine ⟨?_, ?_, rfl⟩
  · intro p l hp hok
    simp only [get_questions, Except.ok.injEq] at hok
    rw [← hok, Int.toNat_natCast]
    exact List.length_take_le _ _
  · have harg : ∀ i : Nat,
        ((((i + 1 : Nat) : Int) - 1) * (sz : Int)).toNat = i * sz := by
      intro i
      have hcast : (((i + 1 : Nat) : Int) - 1) * (sz : Int) = ((i * sz : Nat) : Int) := by
        push_cast; ring
      rw [hcast, Int.toNat_natCast]
    have hpages : ∀ i : Nat,
        ((get_questions ((i + 1 : Nat) : Int) (sz : Int) tags sort_by
            current_user s).toOption).getD []
          = ((questionQueryResult tags sort_by current_user s).drop (i * sz)).take sz := by
      intro i
      have hok : get_questions ((i + 1 : Nat) : Int) (sz : Int) tags sort_by current_user s
          = .ok (((questionQueryResult tags sort_by current_user s).drop (i * sz)).take sz) := by
        simp only [get_questions, harg i, Int.toNat_natCast]
      rw [hok]
      rfl
    simp only [hpages]
    rw [take_drop_chunks_flatten]
    exact List.take_of_length_le hcov

/-- Witness for C8 on a three-question store with page size 2: pages 1 and 2
concatenated reproduce the full tenant-filtered sequence. -/
theorem C8_pagination_witness :
    ((List.range 2).map (fun i =>
        ((get_questions ((i + 1 : Nat) : Int) (2 : Int) none "upvotes"
            ⟨"u1", "tA"⟩
            ⟨[⟨"q1", "a", "d", [], "tA", "u1", 0⟩,
              ⟨"q2", "b", "d", [], "tA", "u1", 0⟩,
              ⟨"q3", "c", "d", [], "tB", "u2", 0⟩], [], []⟩).toOption).getD [])).flatten
      = questionQueryResult none "upvotes" ⟨"u1", "tA"⟩
          ⟨[⟨"q1", "a", "d", [], "tA", "u1", 0⟩,
            ⟨"q2", "b", "d", [], "tA", "u1", 0⟩,
            ⟨"q3", "c", "d", [], "tB", "u2", 0⟩], [], []⟩ :=
  (C8_pagination_covers_exactly
    ⟨[⟨"q1", "a", "d", [], "tA", "u1", 0⟩,
      ⟨"q2", "b", "d", [], "tA", "u1", 0⟩,
      ⟨"q3", "c", "d", [], "tB", "u2", 0⟩], [], []⟩
    ⟨"u1", "tA"⟩ none "upvotes" 2 2 (by decide) (by decide)).2.1
